import Mathlib

/-!
Shallow embedding of the Arkanoid collision / behavior core
(src/collision.py, src/engine.py, src/display.py).

Rectangles follow pygame.Rect: integer `left`, `top`, `width`, `height`,
with `right = left + width`, `bottom = top + height`, and centers computed
with Python floor division (`//`), i.e. `Int.fdiv`.  Python float slopes
and velocities are modelled exactly as rationals (`ℚ`); the source's
epsilon substitutions (0.001, 0.00001) become the corresponding rational
constants.  Python `int()` truncation toward zero is `intPart`.
-/

namespace Arkanoid

/-- pygame.Rect: integer position and size. -/
structure Rect where
  left : Int
  top : Int
  width : Int
  height : Int
deriving DecidableEq

def Rect.right (r : Rect) : Int := r.left + r.width

def Rect.bottom (r : Rect) : Int := r.top + r.height

/-- pygame centerx: `left + width // 2` (Python floor division). -/
def Rect.centerx (r : Rect) : Int := r.left + Int.fdiv r.width 2

/-- pygame centery: `top + height // 2` (Python floor division). -/
def Rect.centery (r : Rect) : Int := r.top + Int.fdiv r.height 2

def Rect.center (r : Rect) : Int × Int := (r.centerx, r.centery)

/-- pygame Rect.move: shift by (dx, dy), size unchanged. -/
def Rect.move (r : Rect) (dx dy : Int) : Rect :=
  { r with left := r.left + dx, top := r.top + dy }

/-- Assigning `rect.top = v` in pygame: move so the top edge is `v`. -/
def Rect.setTop (r : Rect) (v : Int) : Rect := { r with top := v }

/-- Assigning `rect.bottom = v` in pygame: move so the bottom edge is `v`. -/
def Rect.setBottom (r : Rect) (v : Int) : Rect := { r with top := v - r.height }

/-- Assigning `rect.left = v` in pygame: move so the left edge is `v`. -/
def Rect.setLeft (r : Rect) (v : Int) : Rect := { r with left := v }

/-- Assigning `rect.right = v` in pygame: move so the right edge is `v`. -/
def Rect.setRight (r : Rect) (v : Int) : Rect := { r with left := v - r.width }

/-- A sprite as the collision code sees it: current rect and the
previous-frame rect (`sprite.rect`, `sprite.last`). -/
structure Sprite where
  rect : Rect
  last : Rect
deriving DecidableEq

/-! Collision side codes, src/collision.py lines 7-11. -/

def COLLISIONSIDE_NONE : Nat := 0
def COLLISIONSIDE_TOP : Nat := 1
def COLLISIONSIDE_BOTTOM : Nat := 2
def COLLISIONSIDE_LEFT : Nat := 4
def COLLISIONSIDE_RIGHT : Nat := 8

/-- Python `int()` truncation toward zero on a rational. -/
def intPart (q : ℚ) : Int := if 0 ≤ q then ⌊q⌋ else ⌈q⌉

/-- `collide_slopes` (src/collision.py lines 186-219, identically
`GetCollisionSideFromSlopeComparison` in src/engine.py lines 973-1005):
pick the collided side of a corner case by comparing the relative
velocity slope with the slope to the nearest corner, substituting the
epsilon 0.001 for a zero run before dividing. -/
def collide_slopes (potential : Nat) (vel_rise vel_run corner_rise corner_run : Int) : Nat :=
  let vrun : ℚ := if vel_run = 0 then 1/1000 else (vel_run : ℚ)
  let crun : ℚ := if corner_run = 0 then 1/1000 else (corner_run : ℚ)
  let vel_slope : ℚ := (vel_rise : ℚ) / vrun
  let corner_slope : ℚ := (corner_rise : ℚ) / crun
  if potential &&& COLLISIONSIDE_TOP = COLLISIONSIDE_TOP then
    if potential &&& COLLISIONSIDE_LEFT = COLLISIONSIDE_LEFT then
      if vel_slope < corner_slope then COLLISIONSIDE_TOP else COLLISIONSIDE_LEFT
    else if potential &&& COLLISIONSIDE_RIGHT = COLLISIONSIDE_RIGHT then
      if vel_slope > corner_slope then COLLISIONSIDE_TOP else COLLISIONSIDE_RIGHT
    else COLLISIONSIDE_NONE
  else if potential &&& COLLISIONSIDE_BOTTOM = COLLISIONSIDE_BOTTOM then
    if potential &&& COLLISIONSIDE_LEFT = COLLISIONSIDE_LEFT then
      if vel_slope > corner_slope then COLLISIONSIDE_BOTTOM else COLLISIONSIDE_LEFT
    else if potential &&& COLLISIONSIDE_RIGHT = COLLISIONSIDE_RIGHT then
      if vel_slope < corner_slope then COLLISIONSIDE_BOTTOM else COLLISIONSIDE_RIGHT
    else COLLISIONSIDE_NONE
  else COLLISIONSIDE_NONE

/-- Body of `collision_side_worker` after the velocity prologue: everything
past line 127 of src/collision.py uses only the adjusted previous rect of
the mover, the obstacle's current rect, and the relative velocity. -/
def collisionCore (prev obs : Rect) (vel_rise vel_run : Int) : Nat :=
  if prev.right ≤ obs.left then
    if prev.bottom ≤ obs.top then
      collide_slopes (COLLISIONSIDE_LEFT ||| COLLISIONSIDE_TOP)
        vel_rise vel_run (obs.top - prev.bottom) (obs.left - prev.right)
    else if prev.top ≥ obs.bottom then
      collide_slopes (COLLISIONSIDE_LEFT ||| COLLISIONSIDE_BOTTOM)
        vel_rise vel_run (obs.bottom - prev.top) (obs.left - prev.right)
    else COLLISIONSIDE_LEFT
  else if prev.left ≥ obs.right then
    if prev.bottom ≤ obs.top then
      collide_slopes (COLLISIONSIDE_RIGHT ||| COLLISIONSIDE_TOP)
        vel_rise vel_run (prev.bottom - obs.top) (prev.left - obs.right)
    else if prev.top ≥ obs.bottom then
      collide_slopes (COLLISIONSIDE_RIGHT ||| COLLISIONSIDE_BOTTOM)
        vel_rise vel_run (prev.top - obs.bottom) (prev.left - obs.right)
    else COLLISIONSIDE_RIGHT
  else
    if prev.bottom ≤ obs.top then COLLISIONSIDE_TOP
    else if prev.top ≥ obs.bottom then COLLISIONSIDE_BOTTOM
    else COLLISIONSIDE_NONE

/-- The obstacle's one-frame center displacement
(`vel_run_2`, `vel_rise_2` in src/collision.py lines 122-123). -/
def obstacleVel (s2 : Sprite) : Int × Int :=
  (s2.rect.centerx - s2.last.centerx, s2.rect.centery - s2.last.centery)

/-- The mover's relative one-frame center velocity (run, rise)
(`vel_run`, `vel_rise` in src/collision.py lines 125-126). -/
def relVel (s1 s2 : Sprite) : Int × Int :=
  ((s1.rect.centerx - s1.last.centerx) - (obstacleVel s2).1,
   (s1.rect.centery - s1.last.centery) - (obstacleVel s2).2)

/-- `sprite1_prev`: the mover's previous rect shifted by the obstacle's
one-frame displacement (src/collision.py line 127). -/
def prevAdjusted (s1 s2 : Sprite) : Rect :=
  s1.last.move (obstacleVel s2).1 (obstacleVel s2).2

/-- `collision_side_worker` (src/collision.py lines 110-183, identically
src/engine.py lines 899-970). -/
def collision_side_worker (s1 s2 : Sprite) : Nat :=
  collisionCore (prevAdjusted s1 s2) s2.rect (relVel s1 s2).2 (relVel s1 s2).1

/-- `collision_side` (src/collision.py lines 101-107): logging wrapper
around the worker. -/
def collision_side (s1 s2 : Sprite) : Nat :=
  collision_side_worker s1 s2

/-- The slope `rise / run` with the source's epsilon substitution: a zero
run is replaced by 0.001 before dividing (src/collision.py lines 188-195). -/
def epsSlope (rise run : Int) : ℚ :=
  (rise : ℚ) / (if run = 0 then 1/1000 else (run : ℚ))

/-- `Paddle.hit_ball` velocity selection (src/engine.py lines 420-446):
`dx`, `dy` are the ball-center minus paddle-center offsets, `paddle_width`
the paddle rect's width (halved with Python float division), and the
selected table entry is scaled componentwise by the global ball-speed
multiplier. -/
def hit_ball (paddle_width ball_speed : ℚ) (dx dy : Int) : ℚ × ℚ :=
  let half_width : ℚ := paddle_width / 2
  let sharp_thresh : ℚ := half_width - 3
  let mid_thresh : ℚ := half_width - 8
  let vel : ℚ × ℚ :=
    if (dx : ℚ) < -sharp_thresh then (if 0 < dy then (-2, 1) else (-2, -1))
    else if (dx : ℚ) < -mid_thresh then (-8/5, -8/5)
    else if (dx : ℚ) < 0 then (-1, -2)
    else if (dx : ℚ) ≤ mid_thresh then (1, -2)
    else if (dx : ℚ) ≤ sharp_thresh then (8/5, -8/5)
    else if 0 < dy then (2, 1) else (2, -1)
  (vel.1 * ball_speed, vel.2 * ball_speed)

/-- The projectile bounce response of `GameState.update`
(src/engine.py lines 770-781): depending on the resolved side, one
velocity component is replaced by `±abs` of itself and the projectile
rect is snapped flush to the corresponding obstacle edge. -/
def bounce (side : Nat) (delta : ℚ × ℚ) (rect obs : Rect) : (ℚ × ℚ) × Rect :=
  if side = COLLISIONSIDE_BOTTOM then ((delta.1, |delta.2|), rect.setTop obs.bottom)
  else if side = COLLISIONSIDE_TOP then ((delta.1, -|delta.2|), rect.setBottom obs.top)
  else if side = COLLISIONSIDE_RIGHT then ((|delta.1|, delta.2), rect.setLeft obs.right)
  else if side = COLLISIONSIDE_LEFT then ((-|delta.1|, delta.2), rect.setRight obs.left)
  else (delta, rect)

/-- The zero-velocity hack of `collision_move_to_edge`
(src/collision.py lines 79-84): an exactly-zero relative velocity
component is replaced by the tiny nonzero 0.00001. -/
def epsVel (v : Int) : ℚ := if v = 0 then 1/100000 else (v : ℚ)

/-- `collision_move_to_edge` (src/collision.py lines 50-98, identically
src/engine.py lines 844-888): the displacement applied to sprite1 via
`move_ip(int(delta_x), int(delta_y))`. -/
def collision_move_to_edge_delta (s1 s2 : Sprite) : Int × Int :=
  let v1_x := s1.rect.centerx - s1.last.centerx
  let v1_y := s1.rect.centery - s1.last.centery
  let v2_x := s2.rect.centerx - s2.last.centerx
  let v2_y := s2.rect.centery - s2.last.centery
  let vel_x := v1_x - v2_x
  let vel_y := v1_y - v2_y
  let overlap_x := if vel_x ≥ 0 then s1.rect.right - s2.rect.left
    else s1.rect.left - s2.rect.right
  let overlap_y := if vel_y ≥ 0 then s1.rect.bottom - s2.rect.top
    else s1.rect.top - s2.rect.bottom
  let vx : ℚ := epsVel vel_x
  let vy : ℚ := epsVel vel_y
  let time_x : ℚ := (overlap_x : ℚ) / vx
  let time_y : ℚ := (overlap_y : ℚ) / vy
  if time_x < time_y then (intPart (-vx * time_x), intPart (-vy * time_x))
  else (intPart (-vx * time_y), intPart (-vy * time_y))

/-- Spec-side restatement of the paddle-strike displacement, following the
spec's words: per-axis overlap chosen by the sign of the relative
one-frame center velocity, a tiny nonzero value substituted for an
exactly-zero component, per-axis times `overlap / velocity`, and a move by
minus the relative velocity times the smaller of the two times, truncated
to integers. -/
def specMoveToEdgeDelta (s1 s2 : Sprite) : Int × Int :=
  let vel_x := (s1.rect.centerx - s1.last.centerx) - (s2.rect.centerx - s2.last.centerx)
  let vel_y := (s1.rect.centery - s1.last.centery) - (s2.rect.centery - s2.last.centery)
  let overlap_x := if vel_x ≥ 0 then s1.rect.right - s2.rect.left
    else s1.rect.left - s2.rect.right
  let overlap_y := if vel_y ≥ 0 then s1.rect.bottom - s2.rect.top
    else s1.rect.top - s2.rect.bottom
  let vx : ℚ := epsVel vel_x
  let vy : ℚ := epsVel vel_y
  let time_x : ℚ := (overlap_x : ℚ) / vx
  let time_y : ℚ := (overlap_y : ℚ) / vy
  let t := min time_x time_y
  (intPart (-vx * t), intPart (-vy * t))

/-- One axis of `Move.update` (src/display.py lines 210-215): accumulate
the fractional delta, emit the integer part, retain the remainder. -/
def moveAxisStep (delta total : ℚ) : ℚ × Int :=
  let t := total + delta
  let m := intPart t
  (t - m, m)

/-- `Move.update` (src/display.py lines 205-215): both axes advance, the
rect moves by the emitted integer parts, and the action always returns
itself (`some` of the new state — it never finishes). -/
def moveUpdate (delta total : ℚ × ℚ) (r : Rect) : Option ((ℚ × ℚ) × Rect) :=
  some (((moveAxisStep delta.1 total.1).1, (moveAxisStep delta.2 total.2).1),
    r.move (moveAxisStep delta.1 total.1).2 (moveAxisStep delta.2 total.2).2)

/-- Driving one axis of a `Move` action for `n` frames from a zero
accumulator: returns (remaining fractional accumulator, total integer
displacement emitted). -/
def moveRun (delta : ℚ) : Nat → ℚ × Int
  | 0 => (0, 0)
  | n + 1 =>
    let p := moveRun delta n
    let s := moveAxisStep delta p.1
    (s.1, p.2 + s.2)

/-- `rect_distance` (src/collision.py lines 33-47): squared distance from
a point to a rect, per axis the clamped distance to the nearest edge
(inclusive pixel bounds), then summed as squares. -/
def rect_distance (point : Int × Int) (rect : Rect) : Int :=
  let delta_x : Int :=
    if point.1 < rect.left then rect.left - point.1
    else if rect.right - 1 < point.1 then point.1 - (rect.right - 1)
    else 0
  let delta_y : Int :=
    if point.2 < rect.top then rect.top - point.2
    else if rect.bottom - 1 < point.2 then point.2 - (rect.bottom - 1)
    else 0
  delta_x ^ 2 + delta_y ^ 2

/-- `find_closest` (src/collision.py lines 22-30): Python `min` keyed by
the distance from the projectile's previous center to each sprite's
previous rect — the first element attaining the minimal key (Python `min`
replaces the running best only on a strictly smaller key). -/
def find_closest (projectile : Sprite) : List Sprite → Option Sprite
  | [] => none
  | hd :: tl =>
    some (tl.foldl
      (fun best x =>
        if rect_distance projectile.last.center x.last <
            rect_distance projectile.last.center best.last then x else best)
      hd)

/-- The slide-retry loop of `GameState.update` (src/engine.py lines
746-783), abstracted over the per-frame state `σ`: `proj` reads the
projectile sprite, `detect` is the overlap scan (`spritecollide`),
`resolve` applies the hit/bounce response for the chosen obstacle.  The
loop runs at most `fuel` attempts (`range(3)` in the engine), each
resolving the closest overlapping obstacle, breaking as soon as no
overlap remains.  Returns the resolution trace: the state at each attempt
paired with the obstacle resolved there. -/
def slideRetry {σ : Type} (proj : σ → Sprite) (detect : σ → List Sprite)
    (resolve : σ → Sprite → σ) : Nat → σ → List (σ × Sprite)
  | 0, _ => []
  | fuel + 1, s =>
    match find_closest (proj s) (detect s) with
    | none => []
    | some c => (s, c) :: slideRetry proj detect resolve fuel (resolve s c)

/-- `Parallel.update` (src/display.py lines 175-187) over an abstract
child type: advance every child with `upd`, collect the (previous values
of) children that finished this frame — exactly those whose update
returned none, which get `stop` called — and retain the rest; the
combinator itself returns `some` of the retained children, or `none`
(finishes) when none remain. -/
def parallelUpdate {α : Type} (upd : α → Option α) (acts : List α) :
    List α × Option (List α) :=
  let nexts := acts.map upd
  let stopped := (acts.zip nexts).filterMap
    (fun p => match p.2 with
      | none => some p.1
      | some _ => none)
  let retained := nexts.filterMap id
  (stopped, if retained.isEmpty then none else some retained)

/-- Iterating a Parallel combinator: the list of live children after `k`
update calls, or `none` once the combinator has finished. -/
def parRun {α : Type} (upd : α → Option α) (acts : List α) : Nat → Option (List α)
  | 0 => some acts
  | k + 1 => ((parallelUpdate upd acts).2).bind (fun acts' => parRun upd acts' k)

/-- A child behavior that finishes on its own after exactly `n` update
calls: each call decrements the fuel, returning none on the exhausting
call. -/
def fuelUpd : Nat → Option Nat := fun n => if n ≤ 1 then none else some (n - 1)

end Arkanoid

namespace Arkanoid

/-- C1: in each diagonal (corner) configuration of the adjusted previous
rectangle relative to the obstacle, `collision_side` resolves the corner by
the documented slope comparison: Top+Left gives Top iff velocity slope <
corner slope else Left; Top+Right gives Top iff velocity slope > corner
slope else Right; Bottom+Left gives Bottom iff velocity slope > corner
slope else Left; Bottom+Right gives Bottom iff velocity slope < corner
slope else Right; zero run denominators are replaced by the epsilon 0.001
(`epsSlope`) so the comparison is defined. -/
theorem collision_side_corner_slope_table (s1 s2 : Sprite) :
    ((prevAdjusted s1 s2).right ≤ s2.rect.left →
      (prevAdjusted s1 s2).bottom ≤ s2.rect.top →
      collision_side s1 s2 =
        if epsSlope (relVel s1 s2).2 (relVel s1 s2).1 <
            epsSlope (s2.rect.top - (prevAdjusted s1 s2).bottom)
              (s2.rect.left - (prevAdjusted s1 s2).right)
        then COLLISIONSIDE_TOP else COLLISIONSIDE_LEFT) ∧
    ((prevAdjusted s1 s2).right ≤ s2.rect.left →
      ¬ (prevAdjusted s1 s2).bottom ≤ s2.rect.top →
      (prevAdjusted s1 s2).top ≥ s2.rect.bottom →
      collision_side s1 s2 =
        if epsSlope (relVel s1 s2).2 (relVel s1 s2).1 >
            epsSlope (s2.rect.bottom - (prevAdjusted s1 s2).top)
              (s2.rect.left - (prevAdjusted s1 s2).right)
        then COLLISIONSIDE_BOTTOM else COLLISIONSIDE_LEFT) ∧
    (¬ (prevAdjusted s1 s2).right ≤ s2.rect.left →
      (prevAdjusted s1 s2).left ≥ s2.rect.right →
      (prevAdjusted s1 s2).bottom ≤ s2.rect.top →
      collision_side s1 s2 =
        if epsSlope (relVel s1 s2).2 (relVel s1 s2).1 >
            epsSlope ((prevAdjusted s1 s2).bottom - s2.rect.top)
              ((prevAdjusted s1 s2).left - s2.rect.right)
        then COLLISIONSIDE_TOP else COLLISIONSIDE_RIGHT) ∧
    (¬ (prevAdjusted s1 s2).right ≤ s2.rect.left →
      (prevAdjusted s1 s2).left ≥ s2.rect.right →
      ¬ (prevAdjusted s1 s2).bottom ≤ s2.rect.top →
      (prevAdjusted s1 s2).top ≥ s2.rect.bottom →
      collision_side s1 s2 =
        if epsSlope (relVel s1 s2).2 (relVel s1 s2).1 <
            epsSlope ((prevAdjusted s1 s2).top - s2.rect.bottom)
              ((prevAdjusted s1 s2).left - s2.rect.right)
        then COLLISIONSIDE_BOTTOM else COLLISIONSIDE_RIGHT) := by
  refine ⟨fun h1 h2 => ?_, fun h1 h2 h3 => ?_, fun h1 h2 h3 => ?_, fun h1 h2 h3 h4 => ?_⟩ <;>
    simp only [collision_side, collision_side_worker, collisionCore]
  · rw [if_pos h1, if_pos h2]
    simp only [collide_slopes, epsSlope]
    rw [if_pos (show (COLLISIONSIDE_LEFT ||| COLLISIONSIDE_TOP) &&& COLLISIONSIDE_TOP =
          COLLISIONSIDE_TOP by decide),
        if_pos (show (COLLISIONSIDE_LEFT ||| COLLISIONSIDE_TOP) &&& COLLISIONSIDE_LEFT =
          COLLISIONSIDE_LEFT by decide)]
  · rw [if_pos h1, if_neg h2, if_pos h3]
    simp only [collide_slopes, epsSlope]
    rw [if_neg (show ¬ (COLLISIONSIDE_LEFT ||| COLLISIONSIDE_BOTTOM) &&& COLLISIONSIDE_TOP =
          COLLISIONSIDE_TOP by decide),
        if_pos (show (COLLISIONSIDE_LEFT ||| COLLISIONSIDE_BOTTOM) &&& COLLISIONSIDE_BOTTOM =
          COLLISIONSIDE_BOTTOM by decide),
        if_pos (show (COLLISIONSIDE_LEFT ||| COLLISIONSIDE_BOTTOM) &&& COLLISIONSIDE_LEFT =
          COLLISIONSIDE_LEFT by decide)]
  · rw [if_neg h1, if_pos h2, if_pos h3]
    simp only [collide_slopes, epsSlope]
    rw [if_pos (show (COLLISIONSIDE_RIGHT ||| COLLISIONSIDE_TOP) &&& COLLISIONSIDE_TOP =
          COLLISIONSIDE_TOP by decide),
        if_neg (show ¬ (COLLISIONSIDE_RIGHT ||| COLLISIONSIDE_TOP) &&& COLLISIONSIDE_LEFT =
          COLLISIONSIDE_LEFT by decide),
        if_pos (show (COLLISIONSIDE_RIGHT ||| COLLISIONSIDE_TOP) &&& COLLISIONSIDE_RIGHT =
          COLLISIONSIDE_RIGHT by decide)]
  · rw [if_neg h1, if_pos h2, if_neg h3, if_pos h4]
    simp only [collide_slopes, epsSlope]
    rw [if_neg (show ¬ (COLLISIONSIDE_RIGHT ||| COLLISIONSIDE_BOTTOM) &&& COLLISIONSIDE_TOP =
          COLLISIONSIDE_TOP by decide),
        if_pos (show (COLLISIONSIDE_RIGHT ||| COLLISIONSIDE_BOTTOM) &&& COLLISIONSIDE_BOTTOM =
          COLLISIONSIDE_BOTTOM by decide),
        if_neg (show ¬ (COLLISIONSIDE_RIGHT ||| COLLISIONSIDE_BOTTOM) &&& COLLISIONSIDE_LEFT =
          COLLISIONSIDE_LEFT by decide),
        if_pos (show (COLLISIONSIDE_RIGHT ||| COLLISIONSIDE_BOTTOM) &&& COLLISIONSIDE_RIGHT =
          COLLISIONSIDE_RIGHT by decide)]

/-- C1 witness: concrete corner configuration hitting the Top+Left case. -/
theorem collision_side_corner_slope_table_witness :
    collision_side ⟨⟨10, 10, 4, 4⟩, ⟨0, 0, 4, 4⟩⟩ ⟨⟨8, 8, 10, 10⟩, ⟨8, 8, 10, 10⟩⟩ =
      if epsSlope 10 10 < epsSlope 4 4 then COLLISIONSIDE_TOP else COLLISIONSIDE_LEFT := by
  have h := (collision_side_corner_slope_table ⟨⟨10, 10, 4, 4⟩, ⟨0, 0, 4, 4⟩⟩
    ⟨⟨8, 8, 10, 10⟩, ⟨8, 8, 10, 10⟩⟩).1 (by decide) (by decide)
  exact h

/-- C2: when the mover's previous rectangle, shifted by the obstacle's
one-frame displacement, already intersects the obstacle's current
rectangle (it is neither entirely to the left, right, above, nor below),
`collision_side` returns the None code. -/
theorem collision_side_none_of_prev_overlap (s1 s2 : Sprite)
    (h1 : s2.rect.left < (prevAdjusted s1 s2).right)
    (h2 : (prevAdjusted s1 s2).left < s2.rect.right)
    (h3 : s2.rect.top < (prevAdjusted s1 s2).bottom)
    (h4 : (prevAdjusted s1 s2).top < s2.rect.bottom) :
    collision_side s1 s2 = COLLISIONSIDE_NONE := by
  simp only [collision_side, collision_side_worker, collisionCore]
  rw [if_neg (by omega), if_neg (by omega), if_neg (by omega), if_neg (by omega)]

/-- C2 witness: a concrete already-penetrating pair returns None. -/
theorem collision_side_none_of_prev_overlap_witness :
    collision_side ⟨⟨21, 0, 5, 5⟩, ⟨20, 0, 5, 5⟩⟩ ⟨⟨20, 0, 5, 5⟩, ⟨20, 0, 5, 5⟩⟩ =
      COLLISIONSIDE_NONE :=
  collision_side_none_of_prev_overlap _ _ (by decide) (by decide) (by decide) (by decide)

/-- C3: `collision_side` is invariant under transferring motion from the
mover to the obstacle while preserving the relative one-frame velocity:
keeping the mover still at its current rect and letting the obstacle's
previous rect absorb the relative displacement yields the same side,
provided the mover keeps its size across the frame. -/
theorem collision_side_motion_transfer (l1 r1 l2 r2 : Rect)
    (hw : r1.width = l1.width) (hh : r1.height = l1.height) :
    collision_side ⟨r1, l1⟩ ⟨r2, l2⟩ =
      collision_side ⟨r1, r1⟩
        ⟨r2, r2.move ((r1.centerx - l1.centerx) - (r2.centerx - l2.centerx))
          ((r1.centery - l1.centery) - (r2.centery - l2.centery))⟩ := by
  have hA : prevAdjusted (⟨r1, r1⟩ : Sprite)
      ⟨r2, r2.move ((r1.centerx - l1.centerx) - (r2.centerx - l2.centerx))
        ((r1.centery - l1.centery) - (r2.centery - l2.centery))⟩ =
      prevAdjusted (⟨r1, l1⟩ : Sprite) ⟨r2, l2⟩ := by
    simp only [prevAdjusted, obstacleVel, Rect.move, Rect.centerx, Rect.centery,
      Rect.mk.injEq]
    rw [hw, hh]
    omega
  have hC : relVel (⟨r1, r1⟩ : Sprite)
      ⟨r2, r2.move ((r1.centerx - l1.centerx) - (r2.centerx - l2.centerx))
        ((r1.centery - l1.centery) - (r2.centery - l2.centery))⟩ =
      relVel (⟨r1, l1⟩ : Sprite) ⟨r2, l2⟩ := by
    simp only [relVel, obstacleVel, Rect.move, Rect.centerx, Rect.centery, Prod.mk.injEq]
    rw [hw, hh]
    omega
  dsimp only [collision_side, collision_side_worker]
  rw [hA, hC]

/-- C3 witness: mover [10,0,5,5]→[15,0,5,5] against a stationary obstacle
[20,0,5,5] reports Left, and so does the swapped-motion variant where the
mover stands still and the obstacle moves [25,0,5,5]→[20,0,5,5]. -/
theorem collision_side_motion_transfer_witness :
    collision_side ⟨⟨15, 0, 5, 5⟩, ⟨10, 0, 5, 5⟩⟩ ⟨⟨20, 0, 5, 5⟩, ⟨20, 0, 5, 5⟩⟩ =
      collision_side ⟨⟨15, 0, 5, 5⟩, ⟨15, 0, 5, 5⟩⟩ ⟨⟨20, 0, 5, 5⟩, ⟨25, 0, 5, 5⟩⟩ ∧
    collision_side ⟨⟨15, 0, 5, 5⟩, ⟨10, 0, 5, 5⟩⟩ ⟨⟨20, 0, 5, 5⟩, ⟨20, 0, 5, 5⟩⟩ =
      COLLISIONSIDE_LEFT ∧
    collision_side ⟨⟨15, 0, 5, 5⟩, ⟨15, 0, 5, 5⟩⟩ ⟨⟨20, 0, 5, 5⟩, ⟨25, 0, 5, 5⟩⟩ =
      COLLISIONSIDE_LEFT := by
  refine ⟨?_, by decide, by decide⟩
  have h := collision_side_motion_transfer ⟨10, 0, 5, 5⟩ ⟨15, 0, 5, 5⟩ ⟨20, 0, 5, 5⟩
    ⟨20, 0, 5, 5⟩ rfl rfl
  have h2 : (⟨20, 0, 5, 5⟩ : Rect).move
      (((⟨15, 0, 5, 5⟩ : Rect).centerx - (⟨10, 0, 5, 5⟩ : Rect).centerx) -
        ((⟨20, 0, 5, 5⟩ : Rect).centerx - (⟨20, 0, 5, 5⟩ : Rect).centerx))
      (((⟨15, 0, 5, 5⟩ : Rect).centery - (⟨10, 0, 5, 5⟩ : Rect).centery) -
        ((⟨20, 0, 5, 5⟩ : Rect).centery - (⟨20, 0, 5, 5⟩ : Rect).centery)) =
      (⟨25, 0, 5, 5⟩ : Rect) := by decide
  rw [h2] at h
  exact h

/-- The Top+Left corner mask can only resolve to Top or Left. -/
lemma collide_slopes_TL_cases (vr vu cr cu : Int) :
    collide_slopes (COLLISIONSIDE_LEFT ||| COLLISIONSIDE_TOP) vr vu cr cu = COLLISIONSIDE_TOP ∨
    collide_slopes (COLLISIONSIDE_LEFT ||| COLLISIONSIDE_TOP) vr vu cr cu = COLLISIONSIDE_LEFT := by
  simp only [collide_slopes]
  rw [if_pos (show (COLLISIONSIDE_LEFT ||| COLLISIONSIDE_TOP) &&& COLLISIONSIDE_TOP =
        COLLISIONSIDE_TOP by decide),
      if_pos (show (COLLISIONSIDE_LEFT ||| COLLISIONSIDE_TOP) &&& COLLISIONSIDE_LEFT =
        COLLISIONSIDE_LEFT by decide)]
  split_ifs <;> simp

/-- The Bottom+Left corner mask can only resolve to Bottom or Left. -/
lemma collide_slopes_BL_cases (vr vu cr cu : Int) :
    collide_slopes (COLLISIONSIDE_LEFT ||| COLLISIONSIDE_BOTTOM) vr vu cr cu =
      COLLISIONSIDE_BOTTOM ∨
    collide_slopes (COLLISIONSIDE_LEFT ||| COLLISIONSIDE_BOTTOM) vr vu cr cu =
      COLLISIONSIDE_LEFT := by
  simp only [collide_slopes]
  rw [if_neg (show ¬ (COLLISIONSIDE_LEFT ||| COLLISIONSIDE_BOTTOM) &&& COLLISIONSIDE_TOP =
        COLLISIONSIDE_TOP by decide),
      if_pos (show (COLLISIONSIDE_LEFT ||| COLLISIONSIDE_BOTTOM) &&& COLLISIONSIDE_BOTTOM =
        COLLISIONSIDE_BOTTOM by decide),
      if_pos (show (COLLISIONSIDE_LEFT ||| COLLISIONSIDE_BOTTOM) &&& COLLISIONSIDE_LEFT =
        COLLISIONSIDE_LEFT by decide)]
  split_ifs <;> simp

/-- The Top+Right corner mask can only resolve to Top or Right. -/
lemma collide_slopes_TR_cases (vr vu cr cu : Int) :
    collide_slopes (COLLISIONSIDE_RIGHT ||| COLLISIONSIDE_TOP) vr vu cr cu = COLLISIONSIDE_TOP ∨
    collide_slopes (COLLISIONSIDE_RIGHT ||| COLLISIONSIDE_TOP) vr vu cr cu =
      COLLISIONSIDE_RIGHT := by
  simp only [collide_slopes]
  rw [if_pos (show (COLLISIONSIDE_RIGHT ||| COLLISIONSIDE_TOP) &&& COLLISIONSIDE_TOP =
        COLLISIONSIDE_TOP by decide),
      if_neg (show ¬ (COLLISIONSIDE_RIGHT ||| COLLISIONSIDE_TOP) &&& COLLISIONSIDE_LEFT =
        COLLISIONSIDE_LEFT by decide),
      if_pos (show (COLLISIONSIDE_RIGHT ||| COLLISIONSIDE_TOP) &&& COLLISIONSIDE_RIGHT =
        COLLISIONSIDE_RIGHT by decide)]
  split_ifs <;> simp

/-- The Bottom+Right corner mask can only resolve to Bottom or Right. -/
lemma collide_slopes_BR_cases (vr vu cr cu : Int) :
    collide_slopes (COLLISIONSIDE_RIGHT ||| COLLISIONSIDE_BOTTOM) vr vu cr cu =
      COLLISIONSIDE_BOTTOM ∨
    collide_slopes (COLLISIONSIDE_RIGHT ||| COLLISIONSIDE_BOTTOM) vr vu cr cu =
      COLLISIONSIDE_RIGHT := by
  simp only [collide_slopes]
  rw [if_neg (show ¬ (COLLISIONSIDE_RIGHT ||| COLLISIONSIDE_BOTTOM) &&& COLLISIONSIDE_TOP =
        COLLISIONSIDE_TOP by decide),
      if_pos (show (COLLISIONSIDE_RIGHT ||| COLLISIONSIDE_BOTTOM) &&& COLLISIONSIDE_BOTTOM =
        COLLISIONSIDE_BOTTOM by decide),
      if_neg (show ¬ (COLLISIONSIDE_RIGHT ||| COLLISIONSIDE_BOTTOM) &&& COLLISIONSIDE_LEFT =
        COLLISIONSIDE_LEFT by decide),
      if_pos (show (COLLISIONSIDE_RIGHT ||| COLLISIONSIDE_BOTTOM) &&& COLLISIONSIDE_RIGHT =
        COLLISIONSIDE_RIGHT by decide)]
  split_ifs <;> simp

/-- C10: `collision_side` always returns one of the five singleton codes
{None, Top, Bottom, Left, Right}, never a bitwise combination; and the
final None fall-through of the slope-comparison helper is unreachable from
the corner branch, because every potential-sides mask passed there holds
one horizontal candidate (Left/Right) and one vertical candidate
(Top/Bottom). -/
theorem collision_side_singleton_codes :
    (∀ s1 s2 : Sprite,
      collision_side s1 s2 = COLLISIONSIDE_NONE ∨
      collision_side s1 s2 = COLLISIONSIDE_TOP ∨
      collision_side s1 s2 = COLLISIONSIDE_BOTTOM ∨
      collision_side s1 s2 = COLLISIONSIDE_LEFT ∨
      collision_side s1 s2 = COLLISIONSIDE_RIGHT) ∧
    (∀ (vr vu cr cu : Int) (p : Nat),
      (p = COLLISIONSIDE_LEFT ||| COLLISIONSIDE_TOP ∨
       p = COLLISIONSIDE_LEFT ||| COLLISIONSIDE_BOTTOM ∨
       p = COLLISIONSIDE_RIGHT ||| COLLISIONSIDE_TOP ∨
       p = COLLISIONSIDE_RIGHT ||| COLLISIONSIDE_BOTTOM) →
      collide_slopes p vr vu cr cu ≠ COLLISIONSIDE_NONE) := by
  constructor
  · intro s1 s2
    simp only [collision_side, collision_side_worker, collisionCore]
    split_ifs <;>
      first
        | decide
        | (rcases collide_slopes_TL_cases (relVel s1 s2).2 (relVel s1 s2).1
            (s2.rect.top - (prevAdjusted s1 s2).bottom)
            (s2.rect.left - (prevAdjusted s1 s2).right) with h | h <;> rw [h] <;> decide)
        | (rcases collide_slopes_BL_cases (relVel s1 s2).2 (relVel s1 s2).1
            (s2.rect.bottom - (prevAdjusted s1 s2).top)
            (s2.rect.left - (prevAdjusted s1 s2).right) with h | h <;> rw [h] <;> decide)
        | (rcases collide_slopes_TR_cases (relVel s1 s2).2 (relVel s1 s2).1
            ((prevAdjusted s1 s2).bottom - s2.rect.top)
            ((prevAdjusted s1 s2).left - s2.rect.right) with h | h <;> rw [h] <;> decide)
        | (rcases collide_slopes_BR_cases (relVel s1 s2).2 (relVel s1 s2).1
            ((prevAdjusted s1 s2).top - s2.rect.bottom)
            ((prevAdjusted s1 s2).left - s2.rect.right) with h | h <;> rw [h] <;> decide)
  · intro vr vu cr cu p hp
    rcases hp with rfl | rfl | rfl | rfl
    · rcases collide_slopes_TL_cases vr vu cr cu with h | h <;> rw [h] <;> decide
    · rcases collide_slopes_BL_cases vr vu cr cu with h | h <;> rw [h] <;> decide
    · rcases collide_slopes_TR_cases vr vu cr cu with h | h <;> rw [h] <;> decide
    · rcases collide_slopes_BR_cases vr vu cr cu with h | h <;> rw [h] <;> decide

/-- C10 witness: both parts applied at a concrete input. -/
theorem collision_side_singleton_codes_witness :
    (collision_side ⟨⟨15, 0, 5, 5⟩, ⟨10, 0, 5, 5⟩⟩ ⟨⟨20, 0, 5, 5⟩, ⟨20, 0, 5, 5⟩⟩ =
        COLLISIONSIDE_NONE ∨
      collision_side ⟨⟨15, 0, 5, 5⟩, ⟨10, 0, 5, 5⟩⟩ ⟨⟨20, 0, 5, 5⟩, ⟨20, 0, 5, 5⟩⟩ =
        COLLISIONSIDE_TOP ∨
      collision_side ⟨⟨15, 0, 5, 5⟩, ⟨10, 0, 5, 5⟩⟩ ⟨⟨20, 0, 5, 5⟩, ⟨20, 0, 5, 5⟩⟩ =
        COLLISIONSIDE_BOTTOM ∨
      collision_side ⟨⟨15, 0, 5, 5⟩, ⟨10, 0, 5, 5⟩⟩ ⟨⟨20, 0, 5, 5⟩, ⟨20, 0, 5, 5⟩⟩ =
        COLLISIONSIDE_LEFT ∨
      collision_side ⟨⟨15, 0, 5, 5⟩, ⟨10, 0, 5, 5⟩⟩ ⟨⟨20, 0, 5, 5⟩, ⟨20, 0, 5, 5⟩⟩ =
        COLLISIONSIDE_RIGHT) ∧
    collide_slopes (COLLISIONSIDE_LEFT ||| COLLISIONSIDE_TOP) 1 1 1 1 ≠ COLLISIONSIDE_NONE :=
  ⟨collision_side_singleton_codes.1 _ _,
   collision_side_singleton_codes.2 1 1 1 1 _ (Or.inl rfl)⟩

/-- C6: the bounce response touches exactly one velocity axis, forcing its
sign away from the obstacle (Bottom: vertical positive, Top: vertical
negative, Right: horizontal positive, Left: horizontal negative), snaps
the projectile flush to the corresponding obstacle edge on that axis, and
leaves the other axis's velocity component and position unchanged. -/
theorem bounce_single_axis (delta : ℚ × ℚ) (rect obs : Rect) :
    ((bounce COLLISIONSIDE_BOTTOM delta rect obs).1.1 = delta.1 ∧
     (bounce COLLISIONSIDE_BOTTOM delta rect obs).1.2 = |delta.2| ∧
     (delta.2 ≠ 0 → 0 < (bounce COLLISIONSIDE_BOTTOM delta rect obs).1.2) ∧
     (bounce COLLISIONSIDE_BOTTOM delta rect obs).2.top = obs.bottom ∧
     (bounce COLLISIONSIDE_BOTTOM delta rect obs).2.left = rect.left ∧
     (bounce COLLISIONSIDE_BOTTOM delta rect obs).2.width = rect.width ∧
     (bounce COLLISIONSIDE_BOTTOM delta rect obs).2.height = rect.height) ∧
    ((bounce COLLISIONSIDE_TOP delta rect obs).1.1 = delta.1 ∧
     (bounce COLLISIONSIDE_TOP delta rect obs).1.2 = -|delta.2| ∧
     (delta.2 ≠ 0 → (bounce COLLISIONSIDE_TOP delta rect obs).1.2 < 0) ∧
     (bounce COLLISIONSIDE_TOP delta rect obs).2.bottom = obs.top ∧
     (bounce COLLISIONSIDE_TOP delta rect obs).2.left = rect.left ∧
     (bounce COLLISIONSIDE_TOP delta rect obs).2.width = rect.width ∧
     (bounce COLLISIONSIDE_TOP delta rect obs).2.height = rect.height) ∧
    ((bounce COLLISIONSIDE_RIGHT delta rect obs).1.2 = delta.2 ∧
     (bounce COLLISIONSIDE_RIGHT delta rect obs).1.1 = |delta.1| ∧
     (delta.1 ≠ 0 → 0 < (bounce COLLISIONSIDE_RIGHT delta rect obs).1.1) ∧
     (bounce COLLISIONSIDE_RIGHT delta rect obs).2.left = obs.right ∧
     (bounce COLLISIONSIDE_RIGHT delta rect obs).2.top = rect.top ∧
     (bounce COLLISIONSIDE_RIGHT delta rect obs).2.width = rect.width ∧
     (bounce COLLISIONSIDE_RIGHT delta rect obs).2.height = rect.height) ∧
    ((bounce COLLISIONSIDE_LEFT delta rect obs).1.2 = delta.2 ∧
     (bounce COLLISIONSIDE_LEFT delta rect obs).1.1 = -|delta.1| ∧
     (delta.1 ≠ 0 → (bounce COLLISIONSIDE_LEFT delta rect obs).1.1 < 0) ∧
     (bounce COLLISIONSIDE_LEFT delta rect obs).2.right = obs.left ∧
     (bounce COLLISIONSIDE_LEFT delta rect obs).2.top = rect.top ∧
     (bounce COLLISIONSIDE_LEFT delta rect obs).2.width = rect.width ∧
     (bounce COLLISIONSIDE_LEFT delta rect obs).2.height = rect.height) := by
  simp only [bounce, COLLISIONSIDE_BOTTOM, COLLISIONSIDE_TOP, COLLISIONSIDE_RIGHT,
    COLLISIONSIDE_LEFT]
  norm_num [Rect.setTop, Rect.setBottom, Rect.setLeft, Rect.setRight, Rect.bottom,
    Rect.right, abs_pos, neg_lt_zero]

/-- C6 witness: a Bottom bounce of a concrete upward-moving ball makes the
vertical velocity positive and snaps the ball under the obstacle. -/
theorem bounce_single_axis_witness :
    (bounce COLLISIONSIDE_BOTTOM ((1 : ℚ), (-2 : ℚ)) ⟨0, 0, 8, 8⟩ ⟨0, 10, 16, 8⟩).1.2 =
      |(-2 : ℚ)| ∧
    0 < (bounce COLLISIONSIDE_BOTTOM ((1 : ℚ), (-2 : ℚ)) ⟨0, 0, 8, 8⟩ ⟨0, 10, 16, 8⟩).1.2 ∧
    (bounce COLLISIONSIDE_BOTTOM ((1 : ℚ), (-2 : ℚ)) ⟨0, 0, 8, 8⟩
      ⟨0, 10, 16, 8⟩).2.top = (⟨0, 10, 16, 8⟩ : Rect).bottom := by
  have h := bounce_single_axis (1, -2) ⟨0, 0, 8, 8⟩ ⟨0, 10, 16, 8⟩
  exact ⟨h.1.2.1, h.1.2.2.1 (by norm_num), h.1.2.2.2.1⟩

/-- C4 counterexample: with paddle width 64 (half-width 32), horizontal
offsets 29 and 28 select the SAME rebound branch (both give the mid
[1.6, -1.6] entry), so 29 does not select the sharp-edge branch adjacent
to 28's branch; the outermost sharp-edge branch starts only at offset 30. -/
theorem hit_ball_29_28_same_branch :
    hit_ball 64 1 29 (-1) = (8/5, -8/5) ∧
    hit_ball 64 1 28 (-1) = (8/5, -8/5) ∧
    hit_ball 64 1 30 (-1) = (2, -1) := by
  refine ⟨?_, ?_, ?_⟩ <;> simp only [hit_ball] <;> norm_num

/-- C4 amended: with paddle half-width 32 (thresholds 29 and 24), offsets
28 and 29 both select the mid [1.6, -1.6] rebound branch; the sharp-edge
branch is first selected at offset 30 (and the inner steep branch at
offsets up to 24); every branch's velocity pair is the ball-speed-1 entry
scaled componentwise by the current global ball-speed multiplier. -/
theorem hit_ball_threshold_branches :
    (∀ (s : ℚ) (dy : Int),
      hit_ball 64 s 29 dy = (8/5 * s, -8/5 * s) ∧
      hit_ball 64 s 28 dy = (8/5 * s, -8/5 * s) ∧
      hit_ball 64 s 24 dy = (1 * s, -2 * s)) ∧
    (∀ s : ℚ, hit_ball 64 s 30 (-1) = (2 * s, -1 * s)) ∧
    (∀ (w s : ℚ) (dx dy : Int),
      hit_ball w s dx dy =
        ((hit_ball w 1 dx dy).1 * s, (hit_ball w 1 dx dy).2 * s)) := by
  refine ⟨fun s dy => ⟨?_, ?_, ?_⟩, fun s => ?_, fun w s dx dy => ?_⟩ <;>
    simp only [hit_ball] <;> norm_num

/-- The epsilon-substituted relative velocity is never zero, so the time
divisions of `collision_move_to_edge` never divide by zero. -/
lemma epsVel_ne_zero (v : Int) : epsVel v ≠ 0 := by
  unfold epsVel
  split_ifs with h
  · norm_num
  · exact_mod_cast h

/-- C7: the paddle-strike displacement computes per-axis overlaps by the
sign of the relative one-frame center velocity, substitutes the tiny
nonzero 0.00001 for an exactly-zero component (so the divisor is never
zero, even when both components are zero), and moves the struck sprite by
minus the relative velocity times the smaller of the two per-axis times,
truncated to integers — i.e. it agrees with the spec-side restatement
`specMoveToEdgeDelta`. -/
theorem collision_move_to_edge_refines_spec :
    (∀ s1 s2 : Sprite, collision_move_to_edge_delta s1 s2 = specMoveToEdgeDelta s1 s2) ∧
    (∀ v : Int, epsVel v ≠ 0) := by
  constructor
  · intro s1 s2
    simp only [collision_move_to_edge_delta, specMoveToEdgeDelta]
    split_ifs <;> rename_i hlast <;>
      first
        | rw [min_eq_left (le_of_lt hlast)]
        | rw [min_eq_right (le_of_not_lt hlast)]
  · exact epsVel_ne_zero

/-- Truncation toward zero loses strictly less than one unit. -/
lemma abs_sub_intPart_lt_one (q : ℚ) : |q - (intPart q : ℚ)| < 1 := by
  unfold intPart
  split_ifs with h
  · rw [abs_lt]
    constructor <;> linarith [Int.floor_le q, Int.lt_floor_add_one q]
  · rw [abs_lt]
    constructor <;> linarith [Int.le_ceil q, Int.ceil_lt_add_one q]

/-- Running invariant of the Move accumulator: emitted plus remainder
equals the exact total, and the remainder stays below one unit. -/
lemma moveRun_invariant (delta : ℚ) (n : ℕ) :
    ((moveRun delta n).2 : ℚ) + (moveRun delta n).1 = n * delta ∧
    |(moveRun delta n).1| < 1 := by
  induction n with
  | zero => simp [moveRun]
  | succ n ih =>
    have hb := abs_sub_intPart_lt_one ((moveRun delta n).1 + delta)
    have h1 := ih.1
    constructor
    · simp only [moveRun, moveAxisStep]
      push_cast
      push_cast at h1
      ring_nf
      ring_nf at h1
      linarith [h1]
    · simp only [moveRun, moveAxisStep]
      exact hb

/-- The Python `min`-style fold keeps an element of the candidate list
whose key is minimal. -/
lemma foldl_closest_spec (pt : Int × Int) (tl : List Sprite) :
    ∀ b : Sprite,
      (tl.foldl (fun best x =>
        if rect_distance pt x.last < rect_distance pt best.last then x else best) b ∈
          b :: tl) ∧
      rect_distance pt (tl.foldl (fun best x =>
        if rect_distance pt x.last < rect_distance pt best.last then x else best) b).last ≤
        rect_distance pt b.last ∧
      ∀ x ∈ tl,
        rect_distance pt (tl.foldl (fun best x =>
          if rect_distance pt x.last < rect_distance pt best.last then x else best) b).last ≤
          rect_distance pt x.last := by
  induction tl with
  | nil =>
    intro b
    simp
  | cons a t ih =>
    intro b
    simp only [List.foldl_cons]
    by_cases hab : rect_distance pt a.last < rect_distance pt b.last
    · rw [if_pos hab]
      obtain ⟨hmem, hle, hall⟩ := ih a
      refine ⟨List.mem_cons_of_mem b hmem, le_trans hle (le_of_lt hab), ?_⟩
      intro x hx
      rcases List.mem_cons.mp hx with rfl | hx'
      · exact hle
      · exact hall x hx'
    · rw [if_neg hab]
      obtain ⟨hmem, hle, hall⟩ := ih b
      refine ⟨?_, hle, ?_⟩
      · rcases List.mem_cons.mp hmem with heq | hmem'
        · rw [heq]; exact List.mem_cons_self b _
        · exact List.mem_cons_of_mem b (List.mem_cons_of_mem a hmem')
      · intro x hx
        rcases List.mem_cons.mp hx with rfl | hx'
        · exact le_trans hle (le_of_not_lt hab)
        · exact hall x hx'

/-- `find_closest` returns a member of the list minimizing the previous
squared distance to the projectile's previous center. -/
lemma find_closest_spec (p : Sprite) (l : List Sprite) (c : Sprite)
    (h : find_closest p l = some c) :
    c ∈ l ∧
    ∀ x ∈ l, rect_distance p.last.center c.last ≤ rect_distance p.last.center x.last := by
  cases l with
  | nil => simp [find_closest] at h
  | cons hd tl =>
    simp only [find_closest, Option.some.injEq] at h
    subst h
    obtain ⟨hmem, hle, hall⟩ := foldl_closest_spec p.last.center tl hd
    refine ⟨hmem, ?_⟩
    intro x hx
    rcases List.mem_cons.mp hx with rfl | hx'
    · exact hle
    · exact hall x hx'

/-- C5: for any frame state, the slide-retry loop performs at most `fuel`
resolution attempts (3 in the engine), and every attempt resolves an
obstacle from that attempt's overlap set that minimizes the squared
distance from the projectile's previous-frame center to the obstacle's
previous-frame rectangle. -/
theorem slide_retry_closest_resolution :
    ∀ (σ : Type) (proj : σ → Sprite) (detect : σ → List Sprite)
      (resolve : σ → Sprite → σ) (fuel : ℕ) (s : σ),
      (slideRetry proj detect resolve fuel s).length ≤ fuel ∧
      ∀ e ∈ slideRetry proj detect resolve fuel s,
        e.2 ∈ detect e.1 ∧
        ∀ x ∈ detect e.1,
          rect_distance (proj e.1).last.center e.2.last ≤
            rect_distance (proj e.1).last.center x.last := by
  intro σ proj detect resolve fuel
  induction fuel with
  | zero =>
    intro s
    simp [slideRetry]
  | succ fuel ih =>
    intro s
    simp only [slideRetry]
    cases hfc : find_closest (proj s) (detect s) with
    | none => simp
    | some c =>
      obtain ⟨hmem, hmin⟩ := find_closest_spec (proj s) (detect s) c hfc
      obtain ⟨ihlen, ihall⟩ := ih (resolve s c)
      constructor
      · simp only [List.length_cons]
        omega
      · intro e he
        rcases List.mem_cons.mp he with rfl | he'
        · exact ⟨hmem, hmin⟩
        · exact ihall e he'

/-- C5 witness: two overlapping candidates whose previous rects sit at
squared distances 4 and 9 from the projectile's previous center; the
distance-4 obstacle is resolved first, within the 3-attempt bound. -/
theorem slide_retry_closest_resolution_witness :
    (slideRetry (fun _ => (⟨⟨0, 0, 1, 1⟩, ⟨0, 0, 1, 1⟩⟩ : Sprite)) (fun s => s)
      (fun _ _ => []) 3
      [⟨⟨2, 0, 1, 1⟩, ⟨2, 0, 1, 1⟩⟩, ⟨⟨3, 0, 1, 1⟩, ⟨3, 0, 1, 1⟩⟩]).length ≤ 3 ∧
    rect_distance (0, 0) (⟨2, 0, 1, 1⟩ : Rect) = 4 ∧
    rect_distance (0, 0) (⟨3, 0, 1, 1⟩ : Rect) = 9 ∧
    (slideRetry (fun _ => (⟨⟨0, 0, 1, 1⟩, ⟨0, 0, 1, 1⟩⟩ : Sprite)) (fun s => s)
      (fun _ _ => []) 3
      [⟨⟨2, 0, 1, 1⟩, ⟨2, 0, 1, 1⟩⟩, ⟨⟨3, 0, 1, 1⟩, ⟨3, 0, 1, 1⟩⟩]).head? =
      some ([⟨⟨2, 0, 1, 1⟩, ⟨2, 0, 1, 1⟩⟩, ⟨⟨3, 0, 1, 1⟩, ⟨3, 0, 1, 1⟩⟩],
        ⟨⟨2, 0, 1, 1⟩, ⟨2, 0, 1, 1⟩⟩) := by
  have h := slide_retry_closest_resolution (List Sprite)
    (fun _ => (⟨⟨0, 0, 1, 1⟩, ⟨0, 0, 1, 1⟩⟩ : Sprite)) (fun s => s) (fun _ _ => []) 3
    [⟨⟨2, 0, 1, 1⟩, ⟨2, 0, 1, 1⟩⟩, ⟨⟨3, 0, 1, 1⟩, ⟨3, 0, 1, 1⟩⟩]
  exact ⟨h.1, by decide, by decide, by decide⟩

/-- Children finishing this frame are exactly those with fuel at most 1. -/
lemma parallelUpdate_fuelUpd_stopped (acts : List ℕ) :
    (parallelUpdate fuelUpd acts).1 = acts.filter (fun a => decide (a ≤ 1)) := by
  simp only [parallelUpdate]
  induction acts with
  | nil => simp
  | cons a t ih =>
    by_cases ha : a ≤ 1 <;> simp [fuelUpd, ha, ih]

/-- Retained children are exactly the decrements of those with fuel
above 1, in order. -/
lemma parallelUpdate_fuelUpd_retained (acts : List ℕ) :
    ((acts.map fuelUpd).filterMap id) =
      (acts.filter (fun a => decide (1 < a))).map (fun a => a - 1) := by
  induction acts with
  | nil => simp
  | cons a t ih =>
    by_cases ha : a ≤ 1
    · have ha2 : ¬ 1 < a := by omega
      simp [fuelUpd, ha, ha2, ih]
    · have ha2 : 1 < a := by omega
      simp [fuelUpd, ha, ha2, ih]

/-- Shifting a one-frame decrement through the remaining-fuel window. -/
lemma fuel_window_shift (k m : ℕ) :
    (if k < m - 1 then [m - 1 - k] else ([] : List ℕ)) =
      (if k + 1 < m then [m - (k + 1)] else []) := by
  by_cases h : k < m - 1
  · rw [if_pos h, if_pos (by omega)]
    simp only [List.cons.injEq, and_true]
    omega
  · rw [if_neg h, if_neg (by omega)]

/-- Iterating Parallel over a single fuel child. -/
lemma parRun_fuel_single : ∀ (k a : ℕ), 1 ≤ a →
    parRun fuelUpd [a] k = if k < a then some [a - k] else none := by
  intro k
  induction k with
  | zero =>
    intro a ha
    rw [if_pos (by omega)]
    simp [parRun]
  | succ k ih =>
    intro a ha
    simp only [parRun]
    by_cases ha1 : a ≤ 1
    · have : (parallelUpdate fuelUpd [a]).2 = none := by
        simp [parallelUpdate, fuelUpd, ha1]
      rw [this, if_neg (by omega)]
      rfl
    · have : (parallelUpdate fuelUpd [a]).2 = some [a - 1] := by
        simp [parallelUpdate, fuelUpd, ha1]
      rw [this]
      simp only [Option.some_bind]
      rw [ih (a - 1) (by omega)]
      simp only [show (k < a - 1) ↔ (k + 1 < a) from by omega]
      by_cases hk : k + 1 < a
      · rw [if_pos hk, if_pos hk]
        simp only [Option.some.injEq, List.cons.injEq, and_true]
        omega
      · rw [if_neg hk, if_neg hk]

/-- Iterating Parallel over two fuel children. -/
lemma parRun_fuel_pair : ∀ (k m n : ℕ), 1 ≤ m → 1 ≤ n →
    parRun fuelUpd [m, n] k =
      if k < max m n then
        some ((if k < m then [m - k] else []) ++ (if k < n then [n - k] else []))
      else none := by
  intro k
  induction k with
  | zero =>
    intro m n hm hn
    rw [if_pos (by omega), if_pos (by omega), if_pos (by omega)]
    simp [parRun]
  | succ k ih =>
    intro m n hm hn
    simp only [parRun]
    by_cases hm1 : m ≤ 1 <;> by_cases hn1 : n ≤ 1
    · have : (parallelUpdate fuelUpd [m, n]).2 = none := by
        simp [parallelUpdate, fuelUpd, hm1, hn1]
      rw [this, if_neg (by omega)]
      rfl
    · have : (parallelUpdate fuelUpd [m, n]).2 = some [n - 1] := by
        simp [parallelUpdate, fuelUpd, hm1, hn1]
      rw [this]
      simp only [Option.some_bind]
      rw [parRun_fuel_single k (n - 1) (by omega)]
      simp only [show (k < n - 1) ↔ (k + 1 < n) from by omega,
        show (k + 1 < max m n) ↔ (k + 1 < n) from by omega]
      by_cases hk : k + 1 < n
      · rw [if_pos hk, if_pos hk, if_neg (show ¬ k + 1 < m by omega), if_pos hk]
        simp only [List.nil_append, Option.some.injEq, List.cons.injEq, and_true]
        omega
      · rw [if_neg hk, if_neg hk]
    · have : (parallelUpdate fuelUpd [m, n]).2 = some [m - 1] := by
        simp [parallelUpdate, fuelUpd, hm1, hn1]
      rw [this]
      simp only [Option.some_bind]
      rw [parRun_fuel_single k (m - 1) (by omega)]
      simp only [show (k < m - 1) ↔ (k + 1 < m) from by omega,
        show (k + 1 < max m n) ↔ (k + 1 < m) from by omega]
      by_cases hk : k + 1 < m
      · rw [if_pos hk, if_pos hk, if_pos hk, if_neg (show ¬ k + 1 < n by omega)]
        simp only [List.append_nil, Option.some.injEq, List.cons.injEq, and_true]
        omega
      · rw [if_neg hk, if_neg hk]
    · have : (parallelUpdate fuelUpd [m, n]).2 = some [m - 1, n - 1] := by
        simp [parallelUpdate, fuelUpd, hm1, hn1]
      rw [this]
      simp only [Option.some_bind]
      rw [ih (m - 1) (n - 1) (by omega) (by omega), fuel_window_shift k m,
        fuel_window_shift k n]
      simp only [show (k < max (m - 1) (n - 1)) ↔ (k + 1 < max m n) from by omega]

/-- C9: a Parallel (Concurrent) combinator over two children that finish
on their own after `m` and `n` update calls advances every child each
frame, stops exactly the children that finish in a frame (fuel at most 1)
while retaining the decremented rest, and itself finishes (returns none)
exactly on frame `max m n` and not before. -/
theorem parallel_finishes_at_max (m n : ℕ) (hm : 1 ≤ m) (hn : 1 ≤ n) :
    (∀ k, k < max m n → (parRun fuelUpd [m, n] k).isSome = true) ∧
    (∀ k, max m n ≤ k → parRun fuelUpd [m, n] k = none) ∧
    (∀ acts : List ℕ,
      (parallelUpdate fuelUpd acts).1 = acts.filter (fun a => decide (a ≤ 1)) ∧
      (parallelUpdate fuelUpd acts).2 =
        if (acts.filter (fun a => decide (1 < a))).isEmpty then none
        else some ((acts.filter (fun a => decide (1 < a))).map (fun a => a - 1))) := by
  refine ⟨?_, ?_, ?_⟩
  · intro k hk
    rw [parRun_fuel_pair k m n hm hn, if_pos hk]
    rfl
  · intro k hk
    rw [parRun_fuel_pair k m n hm hn, if_neg (by omega)]
  · intro acts
    refine ⟨parallelUpdate_fuelUpd_stopped acts, ?_⟩
    simp only [parallelUpdate]
    rw [parallelUpdate_fuelUpd_retained acts]
    cases hfe : acts.filter (fun a => decide (1 < a)) <;> simp

/-- C9 witness: children finishing after 2 and 3 frames keep the
combinator alive through frame 2 and finish it on frame 3 = max 2 3; a
child with fuel 1 is stopped in its finishing frame. -/
theorem parallel_finishes_at_max_witness :
    (parRun fuelUpd [2, 3] 2).isSome = true ∧
    parRun fuelUpd [2, 3] 3 = none ∧
    (parallelUpdate fuelUpd [1, 4]).1 = [1] := by
  have h := parallel_finishes_at_max 2 3 (by decide) (by decide)
  refine ⟨h.1 2 (by decide), h.2.1 3 (by decide), ?_⟩
  rw [(h.2.2 [1, 4]).1]
  decide

/-- C8: a `Move` action with any constant (possibly fractional) delta
displaces the rect each frame by the emitted integer part only, keeping
the fractional remainder; after `n` frames the accumulated integer
displacement differs from `n * delta` by strictly less than one unit on
the axis; and `update` always returns the action again (`some`), never
finishing. -/
theorem move_accumulation_bound :
    (∀ (delta : ℚ) (n : ℕ), |((moveRun delta n).2 : ℚ) - n * delta| < 1) ∧
    (∀ (delta total : ℚ × ℚ) (r : Rect),
      moveUpdate delta total r =
        some (((total.1 + delta.1) - intPart (total.1 + delta.1),
               (total.2 + delta.2) - intPart (total.2 + delta.2)),
          r.move (intPart (total.1 + delta.1)) (intPart (total.2 + delta.2)))) := by
  constructor
  · intro delta n
    have h := moveRun_invariant delta n
    have heq : ((moveRun delta n).2 : ℚ) - n * delta = -(moveRun delta n).1 := by
      linarith [h.1]
    rw [heq, abs_neg]
    exact h.2
  · intro delta total r
    rfl

end Arkanoid
